import Mathlib

/-!
Shallow embedding of the entitlement / token-minting subsystem of the
beautyclass repository:

* `POST` models the token-minting route handler
  (src/app/api/video/token/route.ts).
* `checkAuth` models the client entitlement state machine and
  `handlePayment` the payment completion handler (the
  VideoPlayerWithAuth client component).

External collaborators (Supabase auth, the profiles table, the PortOne
payment gateway, Node crypto base64/key construction) are modelled as
functions supplied in an environment record; the control flow of the handlers,
branch conditions, status codes and messages are translated directly
from the TypeScript source.  Times are naturals (milliseconds where the
source uses Date.now()).
-/

namespace BeautyClass

/-- A resolved identity, as returned by the identity provider. -/
structure User where
  id : String
  email : String
deriving DecidableEq, Repr

/-- Result of `supabase.auth.getUser(...)`: the (possibly null) `user`
of the `data` field together with whether `error` was non-null. -/
structure GetUserResult where
  user : Option User
  error : Bool
deriving DecidableEq, Repr

/-- A row of the `profiles` table as selected by the handlers
(the `has_paid` column selection). -/
structure Profile where
  has_paid : Bool
deriving DecidableEq, Repr

/-- Result of the single-row `profiles` query by user id:
the (possibly null) row and whether `error` was non-null. -/
structure ProfileLookup where
  data : Option Profile
  error : Bool
deriving DecidableEq, Repr

/-- A private-key handle as produced by the Node `createPrivateKey` call
(identified by its PEM text). -/
structure PrivateKey where
  pem : String
deriving DecidableEq, Repr

/-- The JWT built by the route: payload claims `sub` and `kid`,
protected header `alg`/`kid`, expiration `exp` (seconds), and the key
it was signed with. -/
structure Jwt where
  sub : String
  kidClaim : String
  algHeader : String
  kidHeader : String
  exp : Nat
  signedWith : PrivateKey
deriving DecidableEq, Repr

/-- The JSON responses the route can produce: an `error` body with an
HTTP status, or the 200 success body
`(token, videoId, customerSubdomain, expiresIn)`. -/
inductive MintResponse where
  | error (status : Nat) (message : String)
  | ok (token : Jwt) (videoId : String) (customerSubdomain : String) (expiresIn : Nat)
deriving DecidableEq, Repr

/-- HTTP status of a response (200 on the success body). -/
def MintResponse.status : MintResponse → Nat
  | .error s _ => s
  | .ok _ _ _ _ => 200

/-- Observable effects of one route invocation, used to state per-call
properties: a read of the entitlement store for a user, a private-key
load (`getPrivateKey`), and a JWT signature. -/
inductive Ev where
  | storeRead (userId : String)
  | keyLoad
  | jwtSign
deriving DecidableEq, Repr

/-- The request as the handler consumes it: the `Authorization` header
(if present) and the outcome of `request.json()` — `Except.error` when
parsing throws, otherwise the `videoId` field of the body (absent or a
string). -/
structure MintRequest where
  authHeader : Option String
  body : Except Unit (Option String)
deriving Repr

/-- Process environment of the route: the external collaborators
(identity provider, entitlement store, base64 decoding and key
construction from Node), the configuration values read from env vars,
and the current time in milliseconds (`Date.now()`). -/
structure Env where
  getUser : String → GetUserResult
  getProfile : String → ProfileLookup
  decodeBase64 : String → String
  createPrivateKey : String → PrivateKey
  keyId : String
  signingKeyB64 : String
  customerSubdomain : String
  nowMs : Nat

/-- `getPrivateKey` of the route: base64-decode the configured PEM and
construct a key object.  Note that this is a plain function invoked by
the handler, not a module-level constant. -/
def getPrivateKey (e : Env) : PrivateKey :=
  e.createPrivateKey (e.decodeBase64 e.signingKeyB64)

/-- Boolean prefix test at the character level: the semantics of the
startsWith guard of the source on the `Bearer ` prefix, phrased over the character
lists so that it evaluates by kernel reduction. -/
def strStartsWith (s pre : String) : Bool :=
  pre.data.isPrefixOf s.data

/-- JavaScript falsiness of an optional string field: absent (null or
undefined) or the empty string.  Used for the `!videoId` test of the
route and for the truthiness test on the optional gateway result code
in the payment handler. -/
def jsFalsy : Option String → Bool
  | none => true
  | some s => s.isEmpty

/-- The `POST /api/video/token` handler, returning the response and the
trace of observable effects.  Steps, in source order: (1) reject a
missing or non-Bearer Authorization header with 401; (2) resolve the
session token against the identity provider, 401 on error or null user
(the token is the header after the `Bearer ` prefix, which is what the
replace of the first occurrence in the source yields on a Bearer-prefixed
header); (3) read the profiles row for the user, 404 on error or null
row, 403 when `has_paid` is false; (4) parse the body — a thrown parse
error lands in the outer catch, which responds 500 — and reject a falsy
`videoId` with 400; (5) load the private key, build the JWT with
`sub = videoId`, `kid = keyId`, `alg = RS256` and
`exp = floor(nowMs / 1000) + 3600`, and answer 200. -/
def POST (e : Env) (req : MintRequest) : MintResponse × List Ev :=
  match req.authHeader with
  | none => (MintResponse.error 401 "인증이 필요합니다.", [])
  | some authHeader =>
    if strStartsWith authHeader "Bearer " then
      let ur := e.getUser (authHeader.drop 7)
      match ur.user, ur.error with
      | none, _ => (MintResponse.error 401 "유효하지 않은 세션입니다.", [])
      | some _, true => (MintResponse.error 401 "유효하지 않은 세션입니다.", [])
      | some user, false =>
        let pl := e.getProfile user.id
        let evs := [Ev.storeRead user.id]
        match pl.data, pl.error with
        | none, _ => (MintResponse.error 404 "프로필 정보를 찾을 수 없습니다.", evs)
        | some _, true => (MintResponse.error 404 "프로필 정보를 찾을 수 없습니다.", evs)
        | some profile, false =>
          if profile.has_paid = false then
            (MintResponse.error 403 "결제가 필요합니다.", evs)
          else
            match req.body with
            | Except.error _ => (MintResponse.error 500 "토큰 생성에 실패했습니다.", evs)
            | Except.ok videoId =>
              if jsFalsy videoId then
                (MintResponse.error 400 "videoId가 필요합니다.", evs)
              else
                let privateKey := getPrivateKey e
                let expiresIn := 3600
                let expirationTime := e.nowMs / 1000 + expiresIn
                let token : Jwt :=
                  { sub := videoId.getD "", kidClaim := e.keyId,
                    algHeader := "RS256", kidHeader := e.keyId,
                    exp := expirationTime, signedWith := privateKey }
                (MintResponse.ok token (videoId.getD "") e.customerSubdomain expiresIn,
                  evs ++ [Ev.keyLoad, Ev.jwtSign])
    else (MintResponse.error 401 "인증이 필요합니다.", [])

/-- Viewer states of the client entitlement state machine. -/
inductive AuthStatus where
  | loading
  | not_logged_in
  | not_paid
  | paid
deriving DecidableEq, Repr

/-- The `checkAuth` evaluation of the client component, as a function of
the identity-provider answer and the entitlement store: error or null
user yields `not_logged_in`; lookup error or null row yields `not_paid`;
otherwise the state follows `has_paid`. -/
def checkAuth (ur : GetUserResult) (getProfile : String → ProfileLookup) : AuthStatus :=
  match ur.user, ur.error with
  | none, _ => AuthStatus.not_logged_in
  | some _, true => AuthStatus.not_logged_in
  | some user, false =>
    let pl := getProfile user.id
    match pl.data, pl.error with
    | none, _ => AuthStatus.not_paid
    | some _, true => AuthStatus.not_paid
    | some profile, false =>
      if profile.has_paid then AuthStatus.paid else AuthStatus.not_paid

/-- The charge request handed to `PortOne.requestPayment`. -/
structure PaymentRequest where
  storeId : String
  channelKey : String
  paymentId : String
  orderName : String
  totalAmount : Nat
  currency : String
  payMethod : String
  easyPayProvider : String
  customerEmail : String
deriving DecidableEq, Repr

/-- Gateway answer: an error `code` when the payment failed or was
cancelled (absent on success) and a display `message`. -/
structure PaymentResponse where
  code : Option String
  message : String
deriving DecidableEq, Repr

/-- The row written by the success path of the payment handler
(`upsert` on the `profiles` table, conflict-keyed by `id`). -/
structure ProfileRow where
  id : String
  has_paid : Bool
deriving DecidableEq, Repr

/-- Terminal outcomes of `handlePayment`, one per alert the source can
raise: missing login, gateway failure (with the gateway message), a
successful charge whose entitlement upsert failed, full success, and
the catch-all error path. -/
inductive PaymentOutcome where
  | notLoggedIn
  | paymentFailed (gatewayMessage : String)
  | paidButUnrecorded
  | success
  | genericError
deriving DecidableEq, Repr

/-- The alert text the handler shows for each outcome, verbatim from
the source. -/
def PaymentOutcome.alertMessage : PaymentOutcome → String
  | .notLoggedIn => "로그인이 필요합니다."
  | .paymentFailed m => "결제 실패: " ++ m
  | .paidButUnrecorded => "결제는 완료되었으나 프로필 업데이트에 실패했습니다. 고객센터에 문의해주세요."
  | .success => "결제 완료!"
  | .genericError => "결제 처리 중 오류가 발생했습니다."

/-- Environment of the payment handler: the client-side identity answer
(`supabase.auth.getUser()`, of which only `user` is read), the gateway
(`Except.error` when the SDK call throws, `Except.ok none` when it
returns undefined), the entitlement upsert (returning the error when it
fails), the PortOne configuration, and `Date.now()`. -/
structure PayEnv where
  authUser : Option User
  requestPayment : PaymentRequest → Except Unit (Option PaymentResponse)
  upsertProfile : ProfileRow → Option String
  storeId : String
  channelKey : String
  now : Nat

/-- The payment id generated per attempt:
`payment-(courseId)-(userId)-(timestamp)`. -/
def paymentIdOf (courseId userId : String) (now : Nat) : String :=
  "payment-" ++ courseId ++ "-" ++ userId ++ "-" ++ Nat.repr now

/-- The charge request `handlePayment` builds for the gateway. -/
def chargeRequest (e : PayEnv) (courseId title : String) (price : Nat) (user : User) :
    PaymentRequest :=
  { storeId := e.storeId, channelKey := e.channelKey,
    paymentId := paymentIdOf courseId user.id e.now,
    orderName := title, totalAmount := price, currency := "CURRENCY_KRW",
    payMethod := "EASY_PAY", easyPayProvider := "KAKAOPAY",
    customerEmail := user.email }

/-- Result of one `handlePayment` run: the outcome, the upsert calls
made against the entitlement store, and the payment id used for the
gateway charge (none when no charge was attempted). -/
structure HandlerResult where
  outcome : PaymentOutcome
  upsertCalls : List ProfileRow
  paymentId : Option String
deriving DecidableEq, Repr

/-- The `handlePayment` function of the client component: require a
resolved user; build the per-attempt payment id; call the gateway (a
thrown SDK error lands in the catch, the generic error path); a truthy
result `code` — present and non-empty — reports the gateway failure and
mutates nothing; a null, undefined or empty-string code is falsy, so
the handler proceeds to upsert `has_paid = true` for the user, reporting
`paidButUnrecorded` when the upsert errors and `success` otherwise. -/
def handlePayment (e : PayEnv) (courseId title : String) (price : Nat) : HandlerResult :=
  match e.authUser with
  | none => ⟨PaymentOutcome.notLoggedIn, [], none⟩
  | some user =>
    let paymentId := paymentIdOf courseId user.id e.now
    let afterCharge : HandlerResult :=
      let row : ProfileRow := ⟨user.id, true⟩
      match e.upsertProfile row with
      | some _ => ⟨PaymentOutcome.paidButUnrecorded, [row], some paymentId⟩
      | none => ⟨PaymentOutcome.success, [row], some paymentId⟩
    match e.requestPayment (chargeRequest e courseId title price user) with
    | Except.error _ => ⟨PaymentOutcome.genericError, [], some paymentId⟩
    | Except.ok none => afterCharge
    | Except.ok (some response) =>
      if jsFalsy response.code then afterCharge
      else ⟨PaymentOutcome.paymentFailed response.message, [], some paymentId⟩

/-- Decimal digit characters of a natural number, most significant
first; the reference spelling used to reason about `Nat.repr`. -/
def decChars (n : Nat) : List Char :=
  if _h : n < 10 then [Nat.digitChar n]
  else decChars (n / 10) ++ [Nat.digitChar (n % 10)]
termination_by n
decreasing_by
  exact Nat.div_lt_self (by omega) (by omega)

/-! Concrete collaborator instances used to evaluate the handlers. -/

/-- A sample identity used by the concrete instances. -/
def paidUser : User := ⟨"user-1", "user1@example.com"⟩

/-- Environment in which the session token `tok` resolves to `paidUser`
and the entitlement row exists with `has_paid = true`. -/
def paidEnv : Env :=
  { getUser := fun t => if t = "tok" then ⟨some paidUser, false⟩ else ⟨none, true⟩,
    getProfile := fun uid => if uid = "user-1" then ⟨some ⟨true⟩, false⟩ else ⟨none, true⟩,
    decodeBase64 := fun _ => "PEM",
    createPrivateKey := fun s => ⟨s⟩,
    keyId := "kid-1",
    signingKeyB64 := "UEVN",
    customerSubdomain := "cust.example",
    nowMs := 1700000000000 }

/-- Same identities, but the entitlement row has `has_paid = false`. -/
def unpaidEnv : Env :=
  { paidEnv with getProfile := fun _ => ⟨some ⟨false⟩, false⟩ }

/-- Same identities, but the entitlement lookup itself fails: the store
answers a non-null error and a null row. -/
def lookupFailureEnv : Env :=
  { paidEnv with getProfile := fun _ => ⟨none, true⟩ }

/-- A well-formed mint request for `vid123` with the session of
`paidUser`. -/
def okReq : MintRequest := ⟨some "Bearer tok", Except.ok (some "vid123")⟩

/-- Payment environment in which the gateway reports a cancellation. -/
def failPayEnv : PayEnv :=
  { authUser := some paidUser,
    requestPayment := fun _ =>
      Except.ok (some ⟨some "PAY_PROCESS_CANCELED", "사용자가 결제를 취소했습니다"⟩),
    upsertProfile := fun _ => none,
    storeId := "store-1",
    channelKey := "chan-1",
    now := 1700000000000 }

/-- Payment environment in which the charge succeeds but the
entitlement upsert fails (store outage). -/
def outagePayEnv : PayEnv :=
  { failPayEnv with
    requestPayment := fun _ => Except.ok (some ⟨none, "ok"⟩),
    upsertProfile := fun _ => some "store outage" }

/-- Payment environment in which the gateway answers with an
empty-string result code: non-null, but falsy in JS. -/
def emptyCodePayEnv : PayEnv :=
  { failPayEnv with
    requestPayment := fun _ => Except.ok (some ⟨some "", "빈 코드"⟩) }

/-! Helper lemmas: decimal representation of naturals is injective. -/

theorem digitChar_injOn : ∀ a < 10, ∀ b < 10, Nat.digitChar a = Nat.digitChar b → a = b := by
  decide

theorem decChars_ne_nil (n : Nat) : decChars n ≠ [] := by
  rw [decChars]
  split <;> simp

theorem decChars_lt (n : Nat) (h : n < 10) : decChars n = [Nat.digitChar n] := by
  rw [decChars]
  simp [h]

theorem decChars_ge (n : Nat) (h : ¬ n < 10) :
    decChars n = decChars (n / 10) ++ [Nat.digitChar (n % 10)] := by
  rw [decChars]
  simp [h]

theorem decChars_inj : ∀ m n : Nat, decChars m = decChars n → m = n := by
  intro m
  induction m using Nat.strong_induction_on with
  | _ m ih =>
    intro n h
    by_cases hm : m < 10 <;> by_cases hn : n < 10
    · rw [decChars_lt m hm, decChars_lt n hn] at h
      exact digitChar_injOn m hm n hn (List.singleton_injective h)
    · rw [decChars_lt m hm, decChars_ge n hn] at h
      have hl := congrArg List.length h
      simp at hl
      exact absurd hl (decChars_ne_nil (n / 10))
    · rw [decChars_ge m hm, decChars_lt n hn] at h
      have hl := congrArg List.length h
      simp at hl
      exact absurd hl (decChars_ne_nil (m / 10))
    · rw [decChars_ge m hm, decChars_ge n hn] at h
      have hrev := congrArg List.reverse h
      simp only [List.reverse_append, List.reverse_singleton, List.singleton_append,
        List.cons.injEq, List.reverse_inj] at hrev
      have hmod : m % 10 = n % 10 :=
        digitChar_injOn (m % 10) (Nat.mod_lt _ (by omega)) (n % 10) (Nat.mod_lt _ (by omega))
          hrev.1
      have hdiv : m / 10 = n / 10 :=
        ih (m / 10) (Nat.div_lt_self (by omega) (by omega)) (n / 10) hrev.2
      omega

theorem toDigitsCore_eq_decChars :
    ∀ f n l, n < f → Nat.toDigitsCore 10 f n l = decChars n ++ l := by
  intro f
  induction f with
  | zero => omega
  | succ f ih =>
    intro n l hn
    rw [Nat.toDigitsCore]
    by_cases h0 : n / 10 = 0
    · have hlt : n < 10 := by omega
      simp only [h0, if_true, decChars_lt n hlt, Nat.mod_eq_of_lt hlt]
      rfl
    · have hge : ¬ n < 10 := by omega
      simp only [h0, if_false]
      rw [ih (n / 10) _ (by
        have : n / 10 < n := Nat.div_lt_self (by omega) (by omega)
        omega)]
      rw [decChars_ge n hge, List.append_assoc]
      rfl

theorem natRepr_inj (m n : Nat) (h : Nat.repr m = Nat.repr n) : m = n := by
  have hm : Nat.repr m = (decChars m).asString := by
    show (Nat.toDigits 10 m).asString = (decChars m).asString
    rw [Nat.toDigits, toDigitsCore_eq_decChars (m + 1) m [] (Nat.lt_succ_self m),
      List.append_nil]
  have hn : Nat.repr n = (decChars n).asString := by
    show (Nat.toDigits 10 n).asString = (decChars n).asString
    rw [Nat.toDigits, toDigitsCore_eq_decChars (n + 1) n [] (Nat.lt_succ_self n),
      List.append_nil]
  rw [hm, hn] at h
  exact decChars_inj m n (by
    have := congrArg String.data h
    simpa [List.asString] using this)

theorem paymentIdOf_timestamp_inj (courseId userId : String) (t1 t2 : Nat)
    (h : paymentIdOf courseId userId t1 = paymentIdOf courseId userId t2) : t1 = t2 := by
  unfold paymentIdOf at h
  have hd := congrArg String.data h
  simp only [String.data_append] at hd
  have hr : (Nat.repr t1).data = (Nat.repr t2).data := List.append_cancel_left hd
  exact natRepr_inj t1 t2 (by
    cases e1 : Nat.repr t1 with
    | mk d1 =>
      cases e2 : Nat.repr t2 with
      | mk d2 =>
        rw [e1, e2] at hr
        simp only at hr
        rw [hr])

theorem contact_msg_ne_failed_msg (m : String) :
    "결제 실패: " ++ m ≠ "결제는 완료되었으나 프로필 업데이트에 실패했습니다. 고객센터에 문의해주세요." := by
  intro h
  have hd := congrArg String.data h
  simp only [String.data_append] at hd
  have h2 := congrArg (fun l : List Char => l[2]?) hd
  simp at h2

/-- C5: in the client entitlement state machine, an absent or invalid
identity yields `not_logged_in`; a resolved identity with a lookup
error, a missing row, or `has_paid = false` yields `not_paid`; and
`paid` is reached only when the row exists, errors are absent, and
`has_paid = true`. -/
theorem checkAuth_fail_closed (ur : GetUserResult) (g : String → ProfileLookup) :
    (ur.error = true ∨ ur.user = none → checkAuth ur g = AuthStatus.not_logged_in) ∧
    (∀ u, ur.user = some u → ur.error = false →
      (g u.id).error = true ∨ (g u.id).data = none ∨ (g u.id).data = some ⟨false⟩ →
      checkAuth ur g = AuthStatus.not_paid) ∧
    (checkAuth ur g = AuthStatus.paid →
      ∃ u, ur.user = some u ∧ ur.error = false ∧
        (g u.id).data = some ⟨true⟩ ∧ (g u.id).error = false) := by
  obtain ⟨ou, er⟩ := ur
  refine ⟨?_, ?_, ?_⟩
  · rintro (h | h)
    · simp only at h
      subst h
      cases ou <;> simp [checkAuth]
    · simp only at h
      subst h
      cases er <;> simp [checkAuth]
  · rintro u hu he hbad
    simp only at hu he
    subst hu
    subst he
    cases hg : g u.id with
    | mk d perr =>
      rw [hg] at hbad
      simp only at hbad
      rcases hbad with h | h | h
      · subst h
        cases d <;> simp [checkAuth, hg]
      · subst h
        simp [checkAuth, hg]
      · subst h
        cases perr <;> simp [checkAuth, hg]
  · intro hp
    cases ou with
    | none => simp [checkAuth] at hp
    | some u =>
      cases er with
      | true => simp [checkAuth] at hp
      | false =>
        refine ⟨u, rfl, rfl, ?_⟩
        cases hg : g u.id with
        | mk d perr =>
          simp only [checkAuth, hg] at hp
          cases d with
          | none => simp at hp
          | some p =>
            cases perr with
            | true => simp at hp
            | false =>
              cases hpd : p.has_paid with
              | false => simp [hpd] at hp
              | true =>
                cases p
                simp only at hpd
                subst hpd
                exact ⟨rfl, rfl⟩

/-- C5 witness: concrete evaluations of the three branches. -/
theorem checkAuth_fail_closed_witness :
    checkAuth ⟨none, false⟩ (fun _ => ⟨some ⟨true⟩, false⟩) = AuthStatus.not_logged_in ∧
    checkAuth ⟨some paidUser, false⟩ (fun _ => ⟨none, true⟩) = AuthStatus.not_paid ∧
    ∃ u, (some paidUser = some u) ∧ (false = false) ∧
      ((fun _ : String => ProfileLookup.mk (some ⟨true⟩) false) u.id).data = some ⟨true⟩ ∧
      ((fun _ : String => ProfileLookup.mk (some ⟨true⟩) false) u.id).error = false :=
  ⟨(checkAuth_fail_closed ⟨none, false⟩ (fun _ => ⟨some ⟨true⟩, false⟩)).1 (Or.inr rfl),
   (checkAuth_fail_closed ⟨some paidUser, false⟩ (fun _ => ⟨none, true⟩)).2.1
     paidUser rfl rfl (Or.inr (Or.inl rfl)),
   (checkAuth_fail_closed ⟨some paidUser, false⟩ (fun _ => ⟨some ⟨true⟩, false⟩)).2.2 rfl⟩

/-- C6 counterexample: a gateway answer whose result code is the empty
string is non-null, yet falsy under the truthiness test of the source —
the handler takes the success path and performs the entitlement upsert
instead of reporting the failure with no write. -/
theorem handlePayment_empty_code_cex :
    emptyCodePayEnv.requestPayment
        (chargeRequest emptyCodePayEnv "course-1" "뷰티 클래스" 50000 paidUser) =
      Except.ok (some ⟨some "", "빈 코드"⟩) ∧
    (handlePayment emptyCodePayEnv "course-1" "뷰티 클래스" 50000).outcome =
      PaymentOutcome.success ∧
    (handlePayment emptyCodePayEnv "course-1" "뷰티 클래스" 50000).upsertCalls =
      [⟨"user-1", true⟩] :=
  ⟨rfl, by decide, by decide⟩

/-- C6 amended: when the gateway answers with a truthy — present and
non-empty — result code, the payment handler reports the gateway
failure, performs no entitlement upsert, and any retry at a different
timestamp uses a different payment id.  (An empty-string code is falsy
in JS, so the source proceeds to the upsert instead: see the
counterexample.) -/
theorem handlePayment_gateway_failure (e : PayEnv) (courseId title : String) (price : Nat)
    (user : User) (r : PaymentResponse) (c : String)
    (hu : e.authUser = some user)
    (hg : e.requestPayment (chargeRequest e courseId title price user) = Except.ok (some r))
    (hc : r.code = some c)
    (hcne : c ≠ "") :
    handlePayment e courseId title price =
      ⟨PaymentOutcome.paymentFailed r.message, [],
        some (paymentIdOf courseId user.id e.now)⟩ ∧
    ∀ t1 t2 : Nat, t1 ≠ t2 →
      paymentIdOf courseId user.id t1 ≠ paymentIdOf courseId user.id t2 := by
  have hne : c.isEmpty = false := by
    cases hb : c.isEmpty with
    | false => rfl
    | true => exact absurd ((String.isEmpty_iff c).mp hb) hcne
  constructor
  · simp [handlePayment, hu, hg, hc, jsFalsy, hne]
  · intro t1 t2 hne2 heq
    exact hne2 (paymentIdOf_timestamp_inj courseId user.id t1 t2 heq)

/-- C6 witness: a concrete cancelled charge, and two timestamps one
millisecond apart yielding distinct payment ids. -/
theorem handlePayment_gateway_failure_witness :
    handlePayment failPayEnv "course-1" "뷰티 클래스" 50000 =
      ⟨PaymentOutcome.paymentFailed "사용자가 결제를 취소했습니다", [],
        some (paymentIdOf "course-1" "user-1" 1700000000000)⟩ ∧
    paymentIdOf "course-1" "user-1" 1700000000000 ≠
      paymentIdOf "course-1" "user-1" 1700000000001 :=
  ⟨(handlePayment_gateway_failure failPayEnv "course-1" "뷰티 클래스" 50000 paidUser
      ⟨some "PAY_PROCESS_CANCELED", "사용자가 결제를 취소했습니다"⟩ "PAY_PROCESS_CANCELED"
      rfl rfl rfl (by decide)).1,
   (handlePayment_gateway_failure failPayEnv "course-1" "뷰티 클래스" 50000 paidUser
      ⟨some "PAY_PROCESS_CANCELED", "사용자가 결제를 취소했습니다"⟩ "PAY_PROCESS_CANCELED"
      rfl rfl rfl (by decide)).2 1700000000000 1700000000001 (by decide)⟩

/-- C7: a failed entitlement upsert after a successful charge yields
the distinguished `paidButUnrecorded` outcome, whose contact-support
alert differs from the gateway-failure and generic-error outcomes and
messages. -/
theorem handlePayment_upsert_failure_distinct (e : PayEnv) (courseId title : String)
    (price : Nat) (user : User) (r : PaymentResponse) (err : String)
    (hu : e.authUser = some user)
    (hg : e.requestPayment (chargeRequest e courseId title price user) = Except.ok (some r))
    (hc : r.code = none)
    (hup : e.upsertProfile ⟨user.id, true⟩ = some err) :
    (handlePayment e courseId title price).outcome = PaymentOutcome.paidButUnrecorded ∧
    PaymentOutcome.paidButUnrecorded.alertMessage =
      "결제는 완료되었으나 프로필 업데이트에 실패했습니다. 고객센터에 문의해주세요." ∧
    (∀ m, PaymentOutcome.paidButUnrecorded ≠ PaymentOutcome.paymentFailed m) ∧
    PaymentOutcome.paidButUnrecorded ≠ PaymentOutcome.genericError ∧
    (∀ m, (PaymentOutcome.paymentFailed m).alertMessage ≠
      PaymentOutcome.paidButUnrecorded.alertMessage) ∧
    PaymentOutcome.genericError.alertMessage ≠
      PaymentOutcome.paidButUnrecorded.alertMessage := by
  refine ⟨?_, rfl, ?_, ?_, ?_, ?_⟩
  · simp [handlePayment, hu, hg, hc, hup, jsFalsy]
  · intro m h
    exact PaymentOutcome.noConfusion h
  · intro h
    exact PaymentOutcome.noConfusion h
  · intro m
    exact contact_msg_ne_failed_msg m
  · decide

/-- C7 witness: a concrete store outage after a successful charge, with
the distinctness conjuncts instantiated at a concrete gateway message. -/
theorem handlePayment_upsert_failure_distinct_witness :
    (handlePayment outagePayEnv "course-1" "뷰티 클래스" 50000).outcome =
      PaymentOutcome.paidButUnrecorded ∧
    PaymentOutcome.paidButUnrecorded.alertMessage =
      "결제는 완료되었으나 프로필 업데이트에 실패했습니다. 고객센터에 문의해주세요." ∧
    PaymentOutcome.paidButUnrecorded ≠ PaymentOutcome.paymentFailed "한도 초과" ∧
    PaymentOutcome.paidButUnrecorded ≠ PaymentOutcome.genericError ∧
    (PaymentOutcome.paymentFailed "한도 초과").alertMessage ≠
      PaymentOutcome.paidButUnrecorded.alertMessage ∧
    PaymentOutcome.genericError.alertMessage ≠
      PaymentOutcome.paidButUnrecorded.alertMessage :=
  have h := handlePayment_upsert_failure_distinct outagePayEnv "course-1" "뷰티 클래스" 50000
    paidUser ⟨none, "ok"⟩ "store outage" rfl rfl rfl rfl
  ⟨h.1, h.2.1, h.2.2.1 "한도 초과", h.2.2.2.1, h.2.2.2.2.1 "한도 초과", h.2.2.2.2.2⟩

/-- C1: when the entitlement row for the resolved user is absent or has
`has_paid = false` at call time, the mint returns 404 or 403, the call
signs no token, and the entitlement was read from the store during this
very call (the store state is an argument of every call — nothing is
cached across calls). -/
theorem mint_unentitled_no_token (e : Env) (ah : String) (body : Except Unit (Option String))
    (u : User)
    (hbw : strStartsWith ah "Bearer " = true)
    (hu : e.getUser (ah.drop 7) = ⟨some u, false⟩)
    (hp : (e.getProfile u.id).data = none ∨ (e.getProfile u.id).data = some ⟨false⟩) :
    ((POST e ⟨some ah, body⟩).1 = MintResponse.error 404 "프로필 정보를 찾을 수 없습니다." ∨
      (POST e ⟨some ah, body⟩).1 = MintResponse.error 403 "결제가 필요합니다.") ∧
    Ev.jwtSign ∉ (POST e ⟨some ah, body⟩).2 ∧
    Ev.storeRead u.id ∈ (POST e ⟨some ah, body⟩).2 := by
  cases hpl : e.getProfile u.id with
  | mk d perr =>
    rw [hpl] at hp
    simp only at hp
    rcases hp with h | h
    · subst h
      cases perr <;> simp [POST, hbw, hu, hpl]
    · subst h
      cases perr <;> simp [POST, hbw, hu, hpl]

/-- C1 witness: a paid-session call against a store whose row is
absent, and one whose row is unpaid. -/
theorem mint_unentitled_no_token_witness :
    ((POST lookupFailureEnv ⟨some "Bearer tok", Except.ok (some "vid123")⟩).1 =
        MintResponse.error 404 "프로필 정보를 찾을 수 없습니다." ∨
      (POST lookupFailureEnv ⟨some "Bearer tok", Except.ok (some "vid123")⟩).1 =
        MintResponse.error 403 "결제가 필요합니다.") ∧
    Ev.jwtSign ∉ (POST lookupFailureEnv ⟨some "Bearer tok", Except.ok (some "vid123")⟩).2 ∧
    Ev.storeRead "user-1" ∈
      (POST lookupFailureEnv ⟨some "Bearer tok", Except.ok (some "vid123")⟩).2 :=
  mint_unentitled_no_token lookupFailureEnv "Bearer tok" (Except.ok (some "vid123"))
    paidUser (by decide) (by decide) (Or.inl (by decide))

/-- C2: a mint by an entitled user with a non-empty `videoId` answers
200 with a token whose `sub` is the requested `videoId` and whose `exp`
is the mint time (in whole seconds) plus exactly 3600, alongside
`videoId`, `customerSubdomain` and `expiresIn = 3600` in the body. -/
theorem mint_success_token_contract (e : Env) (ah : String) (u : User) (v : String)
    (hbw : strStartsWith ah "Bearer " = true)
    (hu : e.getUser (ah.drop 7) = ⟨some u, false⟩)
    (hp : e.getProfile u.id = ⟨some ⟨true⟩, false⟩)
    (hv : v ≠ "") :
    (POST e ⟨some ah, Except.ok (some v)⟩).1 =
      MintResponse.ok
        { sub := v, kidClaim := e.keyId, algHeader := "RS256", kidHeader := e.keyId,
          exp := e.nowMs / 1000 + 3600, signedWith := getPrivateKey e }
        v e.customerSubdomain 3600 := by
  have hne : v.isEmpty = false := by
    cases hb : v.isEmpty with
    | false => rfl
    | true => exact absurd ((String.isEmpty_iff v).mp hb) hv
  simp [POST, hbw, hu, hp, jsFalsy, hne]

/-- C2 witness: concrete entitled mint of `vid123`. -/
theorem mint_success_token_contract_witness :
    (POST paidEnv ⟨some "Bearer tok", Except.ok (some "vid123")⟩).1 =
      MintResponse.ok
        { sub := "vid123", kidClaim := "kid-1", algHeader := "RS256", kidHeader := "kid-1",
          exp := 1700000000000 / 1000 + 3600, signedWith := getPrivateKey paidEnv }
        "vid123" "cust.example" 3600 :=
  mint_success_token_contract paidEnv "Bearer tok" paidUser "vid123"
    (by decide) (by decide) (by decide) (by decide)

/-- C3: a missing Authorization header, a non-Bearer header, or a
session the identity provider rejects yields 401, for every entitlement
store — replacing the store leaves the answer unchanged. -/
theorem mint_unauthorized (e : Env) (req : MintRequest) (g : String → ProfileLookup)
    (h : req.authHeader = none ∨
      (∃ ah, req.authHeader = some ah ∧ strStartsWith ah "Bearer " = false) ∨
      (∃ ah, req.authHeader = some ah ∧ strStartsWith ah "Bearer " = true ∧
        ((e.getUser (ah.drop 7)).error = true ∨ (e.getUser (ah.drop 7)).user = none))) :
    (POST e req).1.status = 401 ∧
    POST { e with getProfile := g } req = POST e req := by
  obtain ⟨ah0, body⟩ := req
  rcases h with h | ⟨ah, hah, hbw⟩ | ⟨ah, hah, hbw, hbad⟩
  · simp only at h
    subst h
    exact ⟨rfl, rfl⟩
  · simp only at hah
    subst hah
    simp [POST, hbw, MintResponse.status]
  · simp only at hah
    subst hah
    cases hgu : e.getUser (ah.drop 7) with
    | mk ou er =>
      rw [hgu] at hbad
      simp only at hbad
      rcases hbad with h | h
      · subst h
        cases ou <;> simp [POST, hbw, hgu, MintResponse.status]
      · subst h
        cases er <;> simp [POST, hbw, hgu, MintResponse.status]

/-- C3 witness: a request without Authorization header is 401 and
insensitive to the store contents. -/
theorem mint_unauthorized_witness :
    (POST paidEnv ⟨none, Except.ok (some "vid123")⟩).1.status = 401 ∧
    POST { paidEnv with getProfile := fun _ => ⟨some ⟨false⟩, false⟩ }
        ⟨none, Except.ok (some "vid123")⟩ =
      POST paidEnv ⟨none, Except.ok (some "vid123")⟩ :=
  mint_unauthorized paidEnv ⟨none, Except.ok (some "vid123")⟩
    (fun _ => ⟨some ⟨false⟩, false⟩) (Or.inl rfl)

/-- C4 counterexample: a failed entitlement lookup (the store answers a
non-null error and a null row) is answered with 404, not with the
Internal class 500. -/
theorem mint_lookup_failure_not_internal_cex :
    lookupFailureEnv.getProfile "user-1" = ⟨none, true⟩ ∧
    (POST lookupFailureEnv okReq).1 = MintResponse.error 404 "프로필 정보를 찾을 수 없습니다." ∧
    (POST lookupFailureEnv okReq).1.status ≠ 500 :=
  ⟨by decide, by decide, by decide⟩

/-- C4 amended: an entitlement-lookup failure is answered with NotFound
404, exactly like an absent record; the 500 class is reserved for
exceptions thrown inside the handler (such as body parsing), not for
store lookups that fail. -/
theorem mint_lookup_failure_notfound (e : Env) (ah : String)
    (body : Except Unit (Option String)) (u : User)
    (hbw : strStartsWith ah "Bearer " = true)
    (hu : e.getUser (ah.drop 7) = ⟨some u, false⟩)
    (herr : (e.getProfile u.id).error = true ∨ (e.getProfile u.id).data = none) :
    (POST e ⟨some ah, body⟩).1 = MintResponse.error 404 "프로필 정보를 찾을 수 없습니다." := by
  cases hpl : e.getProfile u.id with
  | mk d perr =>
    rw [hpl] at herr
    simp only at herr
    rcases herr with h | h
    · subst h
      cases d <;> simp [POST, hbw, hu, hpl]
    · subst h
      cases perr <;> simp [POST, hbw, hu, hpl]

/-- C4 amended witness: a concrete failed lookup answered with 404. -/
theorem mint_lookup_failure_notfound_witness :
    (POST lookupFailureEnv ⟨some "Bearer tok", Except.error ()⟩).1 =
      MintResponse.error 404 "프로필 정보를 찾을 수 없습니다." :=
  mint_lookup_failure_notfound lookupFailureEnv "Bearer tok" (Except.error ()) paidUser
    (by decide) (by decide) (Or.inl (by decide))

/-- C8 counterexample: a successful mint call performs a key load
itself — `getPrivateKey` (base64 decode plus key construction) runs
inside `POST`, so the trace of an entitled call contains a key-load
effect rather than only reads of a pre-built process-wide handle. -/
theorem mint_key_loaded_per_call_cex :
    (POST paidEnv okReq).1.status = 200 ∧
    Ev.keyLoad ∈ (POST paidEnv okReq).2 :=
  ⟨by decide, by decide⟩

/-- C8 amended: the configuration string is read at module load, but
the private key is decoded and constructed inside each mint call —
every call that answers 200 carries a key-load effect in its own
trace. -/
theorem mint_success_loads_key (e : Env) (req : MintRequest)
    (h : (POST e req).1.status = 200) :
    Ev.keyLoad ∈ (POST e req).2 := by
  obtain ⟨ah, body⟩ := req
  cases ah with
  | none =>
    rw [POST] at h
    simp [MintResponse.status] at h
  | some hdr =>
    by_cases hbw : strStartsWith hdr "Bearer " = true
    · cases hgu : e.getUser (hdr.drop 7) with
      | mk ou er =>
        cases ou with
        | none =>
          rw [POST] at h
          simp [hbw, hgu, MintResponse.status] at h
        | some u =>
          cases er with
          | true =>
            rw [POST] at h
            simp [hbw, hgu, MintResponse.status] at h
          | false =>
            cases hpl : e.getProfile u.id with
            | mk d perr =>
              cases d with
              | none =>
                rw [POST] at h
                simp [hbw, hgu, hpl, MintResponse.status] at h
              | some p =>
                cases perr with
                | true =>
                  rw [POST] at h
                  simp [hbw, hgu, hpl, MintResponse.status] at h
                | false =>
                  cases hpaid : p.has_paid with
                  | false =>
                    rw [POST] at h
                    simp [hbw, hgu, hpl, hpaid, MintResponse.status] at h
                  | true =>
                    cases body with
                    | error x =>
                      rw [POST] at h
                      simp [hbw, hgu, hpl, hpaid, MintResponse.status] at h
                    | ok v =>
                      cases hfv : jsFalsy v with
                      | true =>
                        rw [POST] at h
                        simp [hbw, hgu, hpl, hpaid, hfv, MintResponse.status] at h
                      | false =>
                        simp [POST, hbw, hgu, hpl, hpaid, hfv]
    · rw [POST] at h
      simp [hbw, MintResponse.status] at h

/-- C8 amended witness: the concrete entitled call carries a key load. -/
theorem mint_success_loads_key_witness :
    Ev.keyLoad ∈ (POST paidEnv okReq).2 :=
  mint_success_loads_key paidEnv okReq (by decide)

/-- C9: authorization and entitlement checks strictly precede body
handling — a 401, 404 or 403 answer is unchanged under any replacement
of the request body, and a 400 answer implies the caller was
authenticated and entitled. -/
theorem mint_check_order (e : Env) (ah : Option String)
    (b1 b2 : Except Unit (Option String)) :
    ((POST e ⟨ah, b1⟩).1.status = 401 ∨ (POST e ⟨ah, b1⟩).1.status = 404 ∨
      (POST e ⟨ah, b1⟩).1.status = 403 →
      POST e ⟨ah, b2⟩ = POST e ⟨ah, b1⟩) ∧
    ((POST e ⟨ah, b1⟩).1.status = 400 →
      ∃ hdr u p, ah = some hdr ∧ strStartsWith hdr "Bearer " = true ∧
        e.getUser (hdr.drop 7) = ⟨some u, false⟩ ∧
        e.getProfile u.id = ⟨some p, false⟩ ∧ p.has_paid = true) := by
  cases ah with
  | none =>
    refine ⟨fun _ => rfl, fun h => ?_⟩
    rw [POST] at h
    simp [MintResponse.status] at h
  | some hdr =>
    by_cases hbw : strStartsWith hdr "Bearer " = true
    · cases hgu : e.getUser (hdr.drop 7) with
      | mk ou er =>
        cases ou with
        | none =>
          constructor
          · intro _
            simp [POST, hbw, hgu]
          · intro h
            rw [POST] at h
            simp [hbw, hgu, MintResponse.status] at h
        | some u =>
          cases er with
          | true =>
            constructor
            · intro _
              simp [POST, hbw, hgu]
            · intro h
              rw [POST] at h
              simp [hbw, hgu, MintResponse.status] at h
          | false =>
            cases hpl : e.getProfile u.id with
            | mk d perr =>
              cases d with
              | none =>
                constructor
                · intro _
                  simp [POST, hbw, hgu, hpl]
                · intro h
                  rw [POST] at h
                  simp [hbw, hgu, hpl, MintResponse.status] at h
              | some p =>
                cases perr with
                | true =>
                  constructor
                  · intro _
                    simp [POST, hbw, hgu, hpl]
                  · intro h
                    rw [POST] at h
                    simp [hbw, hgu, hpl, MintResponse.status] at h
                | false =>
                  cases hpaid : p.has_paid with
                  | false =>
                    constructor
                    · intro _
                      simp [POST, hbw, hgu, hpl, hpaid]
                    · intro h
                      rw [POST] at h
                      simp [hbw, hgu, hpl, hpaid, MintResponse.status] at h
                  | true =>
                    constructor
                    · intro h
                      exfalso
                      rw [POST] at h
                      cases b1 with
                      | error x =>
                        simp [hbw, hgu, hpl, hpaid, MintResponse.status] at h
                      | ok v =>
                        cases hfv : jsFalsy v with
                        | true =>
                          simp [hbw, hgu, hpl, hpaid, hfv, MintResponse.status] at h
                        | false =>
                          simp [hbw, hgu, hpl, hpaid, hfv, MintResponse.status] at h
                    · intro h
                      refine ⟨hdr, u, p, rfl, hbw, hgu, hpl, hpaid⟩
    · constructor
      · intro _
        simp [POST, hbw]
      · intro h
        rw [POST] at h
        simp [hbw, MintResponse.status] at h

/-- C9 witness: an unauthenticated call is body-independent, and a
concrete 400 exhibits an authenticated, entitled caller. -/
theorem mint_check_order_witness :
    POST paidEnv ⟨none, Except.ok (some "vid123")⟩ = POST paidEnv ⟨none, Except.error ()⟩ ∧
    ∃ hdr u p, (some "Bearer tok" : Option String) = some hdr ∧
      strStartsWith hdr "Bearer " = true ∧
      paidEnv.getUser (hdr.drop 7) = ⟨some u, false⟩ ∧
      paidEnv.getProfile u.id = ⟨some p, false⟩ ∧ p.has_paid = true :=
  ⟨(mint_check_order paidEnv none (Except.error ()) (Except.ok (some "vid123"))).1
      (Or.inl (by decide)),
   (mint_check_order paidEnv (some "Bearer tok") (Except.ok (some "")) (Except.error ())).2
      (by decide)⟩

/-- C10: for an authenticated, entitled caller whose body fails to
parse, the answer is the generic 500, not 400. -/
theorem mint_bad_body_internal (e : Env) (ah : String) (u : User)
    (hbw : strStartsWith ah "Bearer " = true)
    (hu : e.getUser (ah.drop 7) = ⟨some u, false⟩)
    (hp : e.getProfile u.id = ⟨some ⟨true⟩, false⟩) :
    (POST e ⟨some ah, Except.error ()⟩).1 =
      MintResponse.error 500 "토큰 생성에 실패했습니다." ∧
    (POST e ⟨some ah, Except.error ()⟩).1.status ≠ 400 := by
  constructor
  · simp [POST, hbw, hu, hp]
  · simp [POST, hbw, hu, hp, MintResponse.status]

/-- C10 witness: a concrete unparsable body for an entitled caller. -/
theorem mint_bad_body_internal_witness :
    (POST paidEnv ⟨some "Bearer tok", Except.error ()⟩).1 =
      MintResponse.error 500 "토큰 생성에 실패했습니다." ∧
    (POST paidEnv ⟨some "Bearer tok", Except.error ()⟩).1.status ≠ 400 :=
  mint_bad_body_internal paidEnv "Bearer tok" paidUser (by decide) (by decide) (by decide)

end BeautyClass
